import Mathlib

/-!
# ClubCompass assessment/recommendation engine — verification

Shallow embedding of `backend/app/services/assessment_service.py` and the
assessment endpoints of `backend/app/api/v1/assessment.py`, together with
`club_service.get_club_by_slug`.

Modelling conventions:
* Python `dict`s that are iterated are embedded as insertion-ordered
  association lists (`List (String × β)`); `d.get(k)` / `k in d` become
  `List.lookup`.
* Python `int` is `Int`; scores and contributions are `Int`, ranks `Nat`.
* Database tables are lists of rows in insertion order; SQLAlchemy queries
  become list `filter`/`find?`.
* `uuid.uuid4()` is nondeterministic, so the fresh id is passed as an
  argument; UUID values are modelled by their canonical lowercase
  dashed-string form.
* Python's stable `list.sort` is embedded as a stable insertion sort
  (`pySortBy`); stable sorts agree extensionally, so this is faithful.
-/

namespace ClubCompass

/-- `CLUB_SCORING_RULES` from `AssessmentService`, transcribed verbatim:
club slug → question key → answer token → integer weight. -/
def CLUB_SCORING_RULES : List (String × List (String × List (String × Int))) := [
  ("acm", [
    ("enjoy", [("coding", 4), ("designing", 2), ("organizing", 1), ("public_speaking", 1), ("creative", 2)]),
    ("domain", [("ai", 3), ("robotics", 2), ("web", 3), ("electronics", 1), ("management", 0)]),
    ("impact", [("tech", 4), ("social", 1), ("cultural", 0), ("entrepreneurship", 2)]),
    ("past", [("coding", 3), ("technical", 3), ("cultural", 0), ("sports", 0), ("none", 1)])]),
  ("teamcodelocked", [
    ("enjoy", [("coding", 5), ("designing", 2), ("organizing", 1), ("public_speaking", 1), ("creative", 1)]),
    ("domain", [("ai", 2), ("robotics", 1), ("web", 3), ("electronics", 1), ("management", 0)]),
    ("impact", [("tech", 5), ("social", 0), ("cultural", 0), ("entrepreneurship", 1)]),
    ("past", [("coding", 4), ("technical", 3), ("cultural", 0), ("sports", 0), ("none", 1)])]),
  ("gdscl", [
    ("enjoy", [("coding", 4), ("designing", 3), ("organizing", 2), ("public_speaking", 2), ("creative", 2)]),
    ("domain", [("ai", 3), ("robotics", 1), ("web", 4), ("electronics", 1), ("management", 1)]),
    ("impact", [("tech", 4), ("social", 2), ("cultural", 0), ("entrepreneurship", 2)]),
    ("past", [("coding", 3), ("technical", 3), ("cultural", 0), ("sports", 0), ("none", 2)])]),
  ("augmentai", [
    ("enjoy", [("coding", 4), ("designing", 2), ("organizing", 1), ("public_speaking", 1), ("creative", 2)]),
    ("domain", [("ai", 5), ("robotics", 2), ("web", 2), ("electronics", 1), ("management", 1)]),
    ("impact", [("tech", 5), ("social", 1), ("cultural", 0), ("entrepreneurship", 2)]),
    ("past", [("coding", 3), ("technical", 4), ("cultural", 0), ("sports", 0), ("none", 1)])]),
  ("varaince", [
    ("enjoy", [("coding", 4), ("designing", 2), ("organizing", 1), ("public_speaking", 1), ("creative", 1)]),
    ("domain", [("ai", 5), ("robotics", 1), ("web", 2), ("electronics", 1), ("management", 1)]),
    ("impact", [("tech", 5), ("social", 1), ("cultural", 0), ("entrepreneurship", 2)]),
    ("past", [("coding", 3), ("technical", 4), ("cultural", 0), ("sports", 0), ("none", 1)])]),
  ("dsync", [
    ("enjoy", [("coding", 4), ("designing", 1), ("organizing", 1), ("public_speaking", 1), ("creative", 1)]),
    ("domain", [("ai", 5), ("robotics", 1), ("web", 3), ("electronics", 1), ("management", 1)]),
    ("impact", [("tech", 4), ("social", 1), ("cultural", 0), ("entrepreneurship", 2)]),
    ("past", [("coding", 4), ("technical", 3), ("cultural", 0), ("sports", 0), ("none", 1)])]),
  ("gradient", [
    ("enjoy", [("coding", 4), ("designing", 2), ("organizing", 1), ("public_speaking", 1), ("creative", 1)]),
    ("domain", [("ai", 5), ("robotics", 2), ("web", 2), ("electronics", 1), ("management", 1)]),
    ("impact", [("tech", 5), ("social", 1), ("cultural", 0), ("entrepreneurship", 2)]),
    ("past", [("coding", 3), ("technical", 4), ("cultural", 0), ("sports", 0), ("none", 1)])]),
  ("robotics", [
    ("enjoy", [("coding", 3), ("designing", 4), ("organizing", 1), ("public_speaking", 0), ("creative", 3)]),
    ("domain", [("ai", 3), ("robotics", 5), ("web", 1), ("electronics", 4), ("management", 0)]),
    ("impact", [("tech", 4), ("social", 1), ("cultural", 0), ("entrepreneurship", 2)]),
    ("past", [("coding", 2), ("technical", 4), ("cultural", 0), ("sports", 0), ("none", 1)])]),
  ("aquila", [
    ("enjoy", [("coding", 2), ("designing", 4), ("organizing", 1), ("public_speaking", 1), ("creative", 3)]),
    ("domain", [("ai", 1), ("robotics", 5), ("web", 0), ("electronics", 3), ("management", 1)]),
    ("impact", [("tech", 4), ("social", 1), ("cultural", 0), ("entrepreneurship", 2)]),
    ("past", [("coding", 1), ("technical", 4), ("cultural", 0), ("sports", 0), ("none", 1)])]),
  ("aero", [
    ("enjoy", [("coding", 2), ("designing", 4), ("organizing", 1), ("public_speaking", 1), ("creative", 3)]),
    ("domain", [("ai", 1), ("robotics", 5), ("web", 0), ("electronics", 3), ("management", 1)]),
    ("impact", [("tech", 4), ("social", 1), ("cultural", 0), ("entrepreneurship", 2)]),
    ("past", [("coding", 1), ("technical", 4), ("cultural", 0), ("sports", 0), ("none", 1)])]),
  ("rocketry", [
    ("enjoy", [("coding", 2), ("designing", 5), ("organizing", 1), ("public_speaking", 1), ("creative", 3)]),
    ("domain", [("ai", 1), ("robotics", 4), ("web", 0), ("electronics", 3), ("management", 1)]),
    ("impact", [("tech", 5), ("social", 0), ("cultural", 0), ("entrepreneurship", 2)]),
    ("past", [("coding", 1), ("technical", 5), ("cultural", 0), ("sports", 0), ("none", 1)])]),
  ("upagraha", [
    ("enjoy", [("coding", 3), ("designing", 4), ("organizing", 1), ("public_speaking", 1), ("creative", 2)]),
    ("domain", [("ai", 2), ("robotics", 5), ("web", 1), ("electronics", 4), ("management", 1)]),
    ("impact", [("tech", 5), ("social", 1), ("cultural", 0), ("entrepreneurship", 2)]),
    ("past", [("coding", 2), ("technical", 5), ("cultural", 0), ("sports", 0), ("none", 1)])]),
  ("bullz", [
    ("enjoy", [("coding", 1), ("designing", 5), ("organizing", 2), ("public_speaking", 1), ("creative", 3)]),
    ("domain", [("ai", 0), ("robotics", 4), ("web", 0), ("electronics", 3), ("management", 2)]),
    ("impact", [("tech", 4), ("social", 1), ("cultural", 0), ("entrepreneurship", 3)]),
    ("past", [("coding", 1), ("technical", 5), ("cultural", 0), ("sports", 2), ("none", 1)])]),
  ("ieee-sb", [
    ("enjoy", [("coding", 3), ("designing", 2), ("organizing", 1), ("public_speaking", 1), ("creative", 1)]),
    ("domain", [("ai", 2), ("robotics", 3), ("web", 2), ("electronics", 4), ("management", 0)]),
    ("impact", [("tech", 4), ("social", 1), ("cultural", 0), ("entrepreneurship", 2)]),
    ("past", [("coding", 2), ("technical", 4), ("cultural", 0), ("sports", 0), ("none", 1)])]),
  ("ieee-cs", [
    ("enjoy", [("coding", 4), ("designing", 2), ("organizing", 1), ("public_speaking", 1), ("creative", 1)]),
    ("domain", [("ai", 3), ("robotics", 2), ("web", 4), ("electronics", 2), ("management", 0)]),
    ("impact", [("tech", 5), ("social", 1), ("cultural", 0), ("entrepreneurship", 1)]),
    ("past", [("coding", 4), ("technical", 3), ("cultural", 0), ("sports", 0), ("none", 1)])]),
  ("ieee-wie", [
    ("enjoy", [("coding", 3), ("designing", 2), ("organizing", 2), ("public_speaking", 2), ("creative", 1)]),
    ("domain", [("ai", 2), ("robotics", 2), ("web", 2), ("electronics", 3), ("management", 2)]),
    ("impact", [("tech", 3), ("social", 3), ("cultural", 1), ("entrepreneurship", 2)]),
    ("past", [("coding", 2), ("technical", 3), ("cultural", 1), ("sports", 0), ("none", 2)])]),
  ("ieee-pes", [
    ("enjoy", [("coding", 2), ("designing", 3), ("organizing", 1), ("public_speaking", 1), ("creative", 1)]),
    ("domain", [("ai", 1), ("robotics", 2), ("web", 1), ("electronics", 5), ("management", 1)]),
    ("impact", [("tech", 4), ("social", 2), ("cultural", 0), ("entrepreneurship", 1)]),
    ("past", [("coding", 1), ("technical", 4), ("cultural", 0), ("sports", 0), ("none", 1)])]),
  ("ieee-sps", [
    ("enjoy", [("coding", 3), ("designing", 2), ("organizing", 1), ("public_speaking", 1), ("creative", 1)]),
    ("domain", [("ai", 3), ("robotics", 1), ("web", 1), ("electronics", 4), ("management", 0)]),
    ("impact", [("tech", 4), ("social", 1), ("cultural", 0), ("entrepreneurship", 1)]),
    ("past", [("coding", 2), ("technical", 4), ("cultural", 0), ("sports", 0), ("none", 1)])]),
  ("elsoc", [
    ("enjoy", [("coding", 2), ("designing", 4), ("organizing", 1), ("public_speaking", 1), ("creative", 2)]),
    ("domain", [("ai", 2), ("robotics", 3), ("web", 1), ("electronics", 5), ("management", 0)]),
    ("impact", [("tech", 4), ("social", 1), ("cultural", 0), ("entrepreneurship", 1)]),
    ("past", [("coding", 2), ("technical", 4), ("cultural", 0), ("sports", 0), ("none", 1)])]),
  ("eeea", [
    ("enjoy", [("coding", 2), ("designing", 3), ("organizing", 1), ("public_speaking", 1), ("creative", 1)]),
    ("domain", [("ai", 1), ("robotics", 2), ("web", 1), ("electronics", 5), ("management", 1)]),
    ("impact", [("tech", 4), ("social", 1), ("cultural", 0), ("entrepreneurship", 1)]),
    ("past", [("coding", 1), ("technical", 4), ("cultural", 0), ("sports", 0), ("none", 1)])]),
  ("mea", [
    ("enjoy", [("coding", 1), ("designing", 4), ("organizing", 1), ("public_speaking", 1), ("creative", 2)]),
    ("domain", [("ai", 1), ("robotics", 3), ("web", 0), ("electronics", 3), ("management", 2)]),
    ("impact", [("tech", 4), ("social", 1), ("cultural", 0), ("entrepreneurship", 2)]),
    ("past", [("coding", 1), ("technical", 5), ("cultural", 0), ("sports", 0), ("none", 1)])]),
  ("codeio", [
    ("enjoy", [("coding", 5), ("designing", 3), ("organizing", 1), ("public_speaking", 1), ("creative", 2)]),
    ("domain", [("ai", 3), ("robotics", 1), ("web", 4), ("electronics", 1), ("management", 1)]),
    ("impact", [("tech", 5), ("social", 1), ("cultural", 0), ("entrepreneurship", 2)]),
    ("past", [("coding", 4), ("technical", 3), ("cultural", 0), ("sports", 0), ("none", 1)])]),
  ("protocol", [
    ("enjoy", [("coding", 4), ("designing", 2), ("organizing", 2), ("public_speaking", 2), ("creative", 2)]),
    ("domain", [("ai", 2), ("robotics", 1), ("web", 3), ("electronics", 1), ("management", 1)]),
    ("impact", [("tech", 4), ("social", 1), ("cultural", 0), ("entrepreneurship", 2)]),
    ("past", [("coding", 3), ("technical", 3), ("cultural", 0), ("sports", 0), ("none", 2)])]),
  ("iseclub", [
    ("enjoy", [("coding", 4), ("designing", 2), ("organizing", 2), ("public_speaking", 2), ("creative", 2)]),
    ("domain", [("ai", 3), ("robotics", 1), ("web", 3), ("electronics", 1), ("management", 1)]),
    ("impact", [("tech", 4), ("social", 2), ("cultural", 1), ("entrepreneurship", 2)]),
    ("past", [("coding", 3), ("technical", 3), ("cultural", 1), ("sports", 0), ("none", 2)])]),
  ("edc", [
    ("enjoy", [("coding", 1), ("designing", 2), ("organizing", 4), ("public_speaking", 4), ("creative", 3)]),
    ("domain", [("ai", 1), ("robotics", 0), ("web", 2), ("electronics", 0), ("management", 5)]),
    ("impact", [("tech", 2), ("social", 2), ("cultural", 1), ("entrepreneurship", 5)]),
    ("past", [("coding", 1), ("technical", 1), ("cultural", 1), ("sports", 1), ("none", 2)])]),
  ("ciie", [
    ("enjoy", [("coding", 1), ("designing", 2), ("organizing", 4), ("public_speaking", 4), ("creative", 2)]),
    ("domain", [("ai", 2), ("robotics", 0), ("web", 2), ("electronics", 0), ("management", 5)]),
    ("impact", [("tech", 2), ("social", 2), ("cultural", 0), ("entrepreneurship", 5)]),
    ("past", [("coding", 1), ("technical", 1), ("cultural", 0), ("sports", 0), ("none", 2)])]),
  ("iic", [
    ("enjoy", [("coding", 1), ("designing", 2), ("organizing", 4), ("public_speaking", 3), ("creative", 2)]),
    ("domain", [("ai", 2), ("robotics", 0), ("web", 2), ("electronics", 0), ("management", 5)]),
    ("impact", [("tech", 2), ("social", 2), ("cultural", 0), ("entrepreneurship", 5)]),
    ("past", [("coding", 1), ("technical", 1), ("cultural", 0), ("sports", 0), ("none", 2)])]),
  ("business-insights", [
    ("enjoy", [("coding", 1), ("designing", 1), ("organizing", 4), ("public_speaking", 4), ("creative", 2)]),
    ("domain", [("ai", 1), ("robotics", 0), ("web", 1), ("electronics", 0), ("management", 5)]),
    ("impact", [("tech", 1), ("social", 2), ("cultural", 0), ("entrepreneurship", 5)]),
    ("past", [("coding", 0), ("technical", 1), ("cultural", 1), ("sports", 0), ("none", 2)])]),
  ("corrtechs", [
    ("enjoy", [("coding", 2), ("designing", 3), ("organizing", 2), ("public_speaking", 2), ("creative", 2)]),
    ("domain", [("ai", 3), ("robotics", 2), ("web", 2), ("electronics", 3), ("management", 2)]),
    ("impact", [("tech", 4), ("social", 4), ("cultural", 0), ("entrepreneurship", 3)]),
    ("past", [("coding", 2), ("technical", 3), ("cultural", 0), ("sports", 0), ("none", 2)])]),
  ("synapse", [
    ("enjoy", [("coding", 1), ("designing", 2), ("organizing", 2), ("public_speaking", 2), ("creative", 2)]),
    ("domain", [("ai", 2), ("robotics", 1), ("web", 1), ("electronics", 2), ("management", 2)]),
    ("impact", [("tech", 3), ("social", 3), ("cultural", 1), ("entrepreneurship", 2)]),
    ("past", [("coding", 1), ("technical", 3), ("cultural", 1), ("sports", 0), ("none", 2)])]),
  ("pentagram", [
    ("enjoy", [("coding", 3), ("designing", 1), ("organizing", 2), ("public_speaking", 2), ("creative", 2)]),
    ("domain", [("ai", 3), ("robotics", 1), ("web", 2), ("electronics", 1), ("management", 1)]),
    ("impact", [("tech", 3), ("social", 1), ("cultural", 1), ("entrepreneurship", 1)]),
    ("past", [("coding", 3), ("technical", 2), ("cultural", 0), ("sports", 0), ("none", 2)])]),
  ("nss", [
    ("enjoy", [("coding", 0), ("designing", 1), ("organizing", 4), ("public_speaking", 3), ("creative", 2)]),
    ("domain", [("ai", 0), ("robotics", 0), ("web", 0), ("electronics", 0), ("management", 3)]),
    ("impact", [("tech", 0), ("social", 5), ("cultural", 2), ("entrepreneurship", 1)]),
    ("past", [("coding", 0), ("technical", 0), ("cultural", 2), ("sports", 1), ("none", 3)])]),
  ("rotaract", [
    ("enjoy", [("coding", 0), ("designing", 1), ("organizing", 5), ("public_speaking", 4), ("creative", 2)]),
    ("domain", [("ai", 0), ("robotics", 0), ("web", 0), ("electronics", 0), ("management", 4)]),
    ("impact", [("tech", 0), ("social", 5), ("cultural", 2), ("entrepreneurship", 2)]),
    ("past", [("coding", 0), ("technical", 0), ("cultural", 2), ("sports", 1), ("none", 3)])]),
  ("leosatva", [
    ("enjoy", [("coding", 0), ("designing", 1), ("organizing", 4), ("public_speaking", 4), ("creative", 2)]),
    ("domain", [("ai", 0), ("robotics", 0), ("web", 0), ("electronics", 0), ("management", 3)]),
    ("impact", [("tech", 0), ("social", 5), ("cultural", 1), ("entrepreneurship", 2)]),
    ("past", [("coding", 0), ("technical", 0), ("cultural", 1), ("sports", 1), ("none", 3)])]),
  ("mountaineering", [
    ("enjoy", [("coding", 0), ("designing", 1), ("organizing", 2), ("public_speaking", 1), ("creative", 3)]),
    ("domain", [("ai", 0), ("robotics", 0), ("web", 0), ("electronics", 0), ("management", 1)]),
    ("impact", [("tech", 0), ("social", 3), ("cultural", 2), ("entrepreneurship", 1)]),
    ("past", [("coding", 0), ("technical", 0), ("cultural", 1), ("sports", 5), ("none", 2)])]),
  ("respawn", [
    ("enjoy", [("coding", 1), ("designing", 2), ("organizing", 3), ("public_speaking", 1), ("creative", 3)]),
    ("domain", [("ai", 1), ("robotics", 0), ("web", 1), ("electronics", 0), ("management", 2)]),
    ("impact", [("tech", 2), ("social", 3), ("cultural", 3), ("entrepreneurship", 1)]),
    ("past", [("coding", 1), ("technical", 1), ("cultural", 2), ("sports", 3), ("none", 2)])]),
  ("ninaad", [
    ("enjoy", [("coding", 0), ("designing", 1), ("organizing", 1), ("public_speaking", 3), ("creative", 5)]),
    ("domain", [("ai", 0), ("robotics", 0), ("web", 0), ("electronics", 0), ("management", 1)]),
    ("impact", [("tech", 0), ("social", 2), ("cultural", 5), ("entrepreneurship", 0)]),
    ("past", [("coding", 0), ("technical", 0), ("cultural", 5), ("sports", 0), ("none", 2)])]),
  ("groovehouse", [
    ("enjoy", [("coding", 0), ("designing", 2), ("organizing", 2), ("public_speaking", 3), ("creative", 5)]),
    ("domain", [("ai", 0), ("robotics", 0), ("web", 1), ("electronics", 1), ("management", 1)]),
    ("impact", [("tech", 0), ("social", 2), ("cultural", 5), ("entrepreneurship", 1)]),
    ("past", [("coding", 0), ("technical", 0), ("cultural", 5), ("sports", 0), ("none", 2)])]),
  ("paramvah", [
    ("enjoy", [("coding", 0), ("designing", 2), ("organizing", 1), ("public_speaking", 2), ("creative", 5)]),
    ("domain", [("ai", 0), ("robotics", 0), ("web", 0), ("electronics", 0), ("management", 1)]),
    ("impact", [("tech", 0), ("social", 2), ("cultural", 5), ("entrepreneurship", 0)]),
    ("past", [("coding", 0), ("technical", 0), ("cultural", 5), ("sports", 1), ("none", 2)])]),
  ("danzaddix", [
    ("enjoy", [("coding", 0), ("designing", 2), ("organizing", 1), ("public_speaking", 2), ("creative", 5)]),
    ("domain", [("ai", 0), ("robotics", 0), ("web", 0), ("electronics", 0), ("management", 1)]),
    ("impact", [("tech", 0), ("social", 2), ("cultural", 5), ("entrepreneurship", 0)]),
    ("past", [("coding", 0), ("technical", 0), ("cultural", 5), ("sports", 1), ("none", 2)])]),
  ("inksanity", [
    ("enjoy", [("coding", 0), ("designing", 1), ("organizing", 2), ("public_speaking", 5), ("creative", 4)]),
    ("domain", [("ai", 0), ("robotics", 0), ("web", 1), ("electronics", 0), ("management", 2)]),
    ("impact", [("tech", 0), ("social", 3), ("cultural", 5), ("entrepreneurship", 1)]),
    ("past", [("coding", 0), ("technical", 0), ("cultural", 5), ("sports", 0), ("none", 2)])]),
  ("finearts", [
    ("enjoy", [("coding", 0), ("designing", 3), ("organizing", 1), ("public_speaking", 1), ("creative", 5)]),
    ("domain", [("ai", 0), ("robotics", 0), ("web", 1), ("electronics", 0), ("management", 0)]),
    ("impact", [("tech", 0), ("social", 2), ("cultural", 5), ("entrepreneurship", 0)]),
    ("past", [("coding", 0), ("technical", 0), ("cultural", 5), ("sports", 0), ("none", 2)])]),
  ("falcons", [
    ("enjoy", [("coding", 1), ("designing", 4), ("organizing", 2), ("public_speaking", 1), ("creative", 5)]),
    ("domain", [("ai", 1), ("robotics", 1), ("web", 2), ("electronics", 1), ("management", 1)]),
    ("impact", [("tech", 2), ("social", 2), ("cultural", 5), ("entrepreneurship", 1)]),
    ("past", [("coding", 0), ("technical", 1), ("cultural", 4), ("sports", 1), ("none", 2)])]),
  ("pravrutthi", [
    ("enjoy", [("coding", 0), ("designing", 2), ("organizing", 2), ("public_speaking", 5), ("creative", 5)]),
    ("domain", [("ai", 0), ("robotics", 0), ("web", 0), ("electronics", 0), ("management", 1)]),
    ("impact", [("tech", 0), ("social", 3), ("cultural", 5), ("entrepreneurship", 0)]),
    ("past", [("coding", 0), ("technical", 0), ("cultural", 5), ("sports", 0), ("none", 2)])]),
  ("panache", [
    ("enjoy", [("coding", 0), ("designing", 4), ("organizing", 3), ("public_speaking", 2), ("creative", 5)]),
    ("domain", [("ai", 0), ("robotics", 0), ("web", 1), ("electronics", 0), ("management", 2)]),
    ("impact", [("tech", 0), ("social", 2), ("cultural", 5), ("entrepreneurship", 2)]),
    ("past", [("coding", 0), ("technical", 0), ("cultural", 5), ("sports", 0), ("none", 2)])]),
  ("chiranthana", [
    ("enjoy", [("coding", 0), ("designing", 1), ("organizing", 2), ("public_speaking", 3), ("creative", 4)]),
    ("domain", [("ai", 0), ("robotics", 0), ("web", 0), ("electronics", 0), ("management", 1)]),
    ("impact", [("tech", 0), ("social", 2), ("cultural", 5), ("entrepreneurship", 0)]),
    ("past", [("coding", 0), ("technical", 0), ("cultural", 5), ("sports", 0), ("none", 2)])]),
  ("samskruthi", [
    ("enjoy", [("coding", 0), ("designing", 2), ("organizing", 2), ("public_speaking", 3), ("creative", 5)]),
    ("domain", [("ai", 0), ("robotics", 0), ("web", 0), ("electronics", 0), ("management", 1)]),
    ("impact", [("tech", 0), ("social", 2), ("cultural", 5), ("entrepreneurship", 0)]),
    ("past", [("coding", 0), ("technical", 0), ("cultural", 5), ("sports", 0), ("none", 2)])]),
  ("munsoc", [
    ("enjoy", [("coding", 0), ("designing", 1), ("organizing", 4), ("public_speaking", 5), ("creative", 2)]),
    ("domain", [("ai", 0), ("robotics", 0), ("web", 0), ("electronics", 0), ("management", 4)]),
    ("impact", [("tech", 0), ("social", 4), ("cultural", 3), ("entrepreneurship", 2)]),
    ("past", [("coding", 0), ("technical", 0), ("cultural", 3), ("sports", 0), ("none", 2)])])]

/-- `QUESTION_TEXT` from `AssessmentService`: question key → question text. -/
def QUESTION_TEXT : List (String × String) := [
  ("enjoy", "What do you enjoy most?"),
  ("time", "How much time can you commit?"),
  ("domain", "Which domain are you most drawn to?"),
  ("impact", "What kind of impact do you want to create?"),
  ("past", "Past experience?")]

/-- `ANSWER_TEXT` from `AssessmentService`: question key → answer token →
human-readable answer text. -/
def ANSWER_TEXT : List (String × List (String × String)) := [
  ("enjoy", [
    ("coding", "Coding / problem solving"),
    ("designing", "Designing and building things"),
    ("organizing", "Organizing events"),
    ("public_speaking", "Public speaking"),
    ("creative", "Creative arts")]),
  ("domain", [
    ("ai", "Artificial Intelligence / Data Science"),
    ("robotics", "Robotics / IoT"),
    ("web", "Web / Mobile Development"),
    ("electronics", "Electronics / Hardware"),
    ("management", "Management / Entrepreneurship")]),
  ("impact", [
    ("tech", "Technological innovation"),
    ("social", "Social change"),
    ("cultural", "Cultural enrichment"),
    ("entrepreneurship", "Entrepreneurship / Business")]),
  ("past", [
    ("coding", "Coding competitions"),
    ("technical", "Technical projects"),
    ("cultural", "Cultural events"),
    ("sports", "Sports events"),
    ("none", "None, first time!")])]

/-- `ReasoningItem` Pydantic schema. -/
structure ReasoningItem where
  question : String
  answer : String
  contribution : Int
  deriving Repr, DecidableEq

/-- `QUESTION_TEXT[question_key]`: a direct index in the source. It is only
reached for question keys that occur in `CLUB_SCORING_RULES`, all of which are
present in `QUESTION_TEXT`, so the `""` default is never used. -/
def questionText (question_key : String) : String :=
  (QUESTION_TEXT.lookup question_key).getD ""

/-- `ANSWER_TEXT[question_key].get(answer_value, answer_value)`. -/
def answerText (question_key answer_value : String) : String :=
  (((ANSWER_TEXT.lookup question_key).getD []).lookup answer_value).getD answer_value

/-- The loop body of `calculate_club_score`: skip `time`; a question/answer
pair present in the club's rule adds its weight to the running total, and a
strictly positive contribution is also appended to the reasoning list. -/
def scoreStep (club_slug : String) (acc : Int × List ReasoningItem)
    (qa : String × String) : Int × List ReasoningItem :=
  if qa.1 = "time" then acc
  else
    match ((CLUB_SCORING_RULES.lookup club_slug).getD []).lookup qa.1 with
    | none => acc
    | some answer_rule =>
      match answer_rule.lookup qa.2 with
      | none => acc
      | some contribution =>
        (acc.1 + contribution,
         if contribution > 0 then
           acc.2 ++ [⟨questionText qa.1, answerText qa.1 qa.2, contribution⟩]
         else acc.2)

/-- `AssessmentService.calculate_club_score`: fold the loop body over the
response map in its iteration (insertion) order, starting from total `0` and
an empty reasoning list. -/
def calculate_club_score (club_slug : String) (responses : List (String × String)) :
    Int × List ReasoningItem :=
  responses.foldl (scoreStep club_slug) (0, [])

example :
    (calculate_club_score "acm"
      [("enjoy", "coding"), ("time", "high"), ("domain", "ai"),
       ("impact", "tech"), ("past", "coding")]).1 = 14 := by decide

/-! ## Stable sorting (Python `list.sort`)

Python's `list.sort` is a stable sort.  `insertBy r` places `x` before the
first `y` with `r x y = true`; with `r a b = (key b ≤ key a)` this yields the
stable descending sort `sort(key=..., reverse=True)`, and with
`r a b = (key a ≤ key b)` the stable ascending sort `sorted(key=...)`.  A
stable sort is extensionally unique, so this insertion sort agrees with
CPython's mergesort. -/

def insertBy {α : Type} (r : α → α → Bool) (x : α) : List α → List α
  | [] => [x]
  | y :: ys => if r x y then x :: y :: ys else y :: insertBy r x ys

def pySortBy {α : Type} (r : α → α → Bool) : List α → List α
  | [] => []
  | x :: xs => insertBy r x (pySortBy r xs)

/-- `Club` ORM model: columns used by the assessment feature. `tagline` and
`logo_url` are nullable columns. -/
structure Club where
  id : String
  slug : String
  name : String
  tagline : Option String
  logo_url : Option String
  is_active : Bool
  deriving Repr, DecidableEq

/-- The `club_dict` built by the services: plain string fields. -/
structure ClubDict where
  id : String
  name : String
  slug : String
  tagline : String
  logo_url : String
  deriving Repr, DecidableEq

/-- One element of `scored_clubs` in `get_club_recommendations`. -/
structure ScoredClub where
  club : ClubDict
  score : Int
  reasoning : List ReasoningItem
  deriving Repr, DecidableEq

/-- `ClubRecommendation` Pydantic schema. -/
structure ClubRecommendation where
  club : ClubDict
  score : Int
  rank : Nat
  reasoning : List ReasoningItem
  deriving Repr, DecidableEq

/-- Python `x or d` on a nullable string column: `None` and `""` are falsy. -/
def pyOr (v : Option String) (d : String) : String :=
  match v with
  | some s => if s = "" then d else s
  | none => d

/-- Comparator of `scored_clubs.sort(key=lambda x: x["score"], reverse=True)`. -/
def scoreDesc (a b : ScoredClub) : Bool := decide (b.score ≤ a.score)

/-- `enumerate(scored_clubs[:top_n], start=1)`: attach 1-based ranks. -/
def assignRanks (rank : Nat) : List ScoredClub → List ClubRecommendation
  | [] => []
  | item :: rest => ⟨item.club, item.score, rank, item.reasoning⟩ :: assignRanks (rank + 1) rest

/-- The loop body of `get_club_recommendations`: `None` when the club has no
entry in `CLUB_SCORING_RULES` (such clubs are skipped), otherwise the scored
club with the `club_dict` built from the database row. -/
def scoreClub (responses : List (String × String)) (db_club : Club) :
    Option ScoredClub :=
  if (CLUB_SCORING_RULES.lookup db_club.slug).isSome then
    let sr := calculate_club_score db_club.slug responses
    some { club := { id := db_club.id, name := db_club.name, slug := db_club.slug,
                     tagline := pyOr db_club.tagline "",
                     logo_url := pyOr db_club.logo_url ("/images/clubs/" ++ db_club.slug ++ ".jpg") },
           score := sr.1, reasoning := sr.2 }
  else none

/-- `AssessmentService.get_club_recommendations`: score every active club that
has an entry in `CLUB_SCORING_RULES`, sort by score descending (stable), take
`top_n`, and attach 1-based ranks. -/
def get_club_recommendations (clubs : List Club) (responses : List (String × String))
    (top_n : Nat := 10) : List ClubRecommendation :=
  let db_clubs := clubs.filter (·.is_active)
  if db_clubs.isEmpty then []
  else
    let scored_clubs := db_clubs.filterMap (scoreClub responses)
    if scored_clubs.isEmpty then []
    else assignRanks 1 ((pySortBy scoreDesc scored_clubs).take top_n)

/-! ## Persistence model -/

/-- `Assessment` ORM row.  `uuid.uuid4()` is nondeterministic, so the id is
supplied by the caller of `create_assessment`; ids are canonical lowercase
dashed UUID strings. -/
structure AssessmentRow where
  id : String
  user_id : Option String
  responses : List (String × String)
  deriving Repr, DecidableEq

/-- `Recommendation` ORM row (club referenced by slug snapshot). -/
structure RecommendationRow where
  assessment_id : String
  club_id : String
  score : Int
  rank : Nat
  reasoning : List ReasoningItem
  deriving Repr, DecidableEq

/-- Database state: rows in insertion order. -/
structure DB where
  clubs : List Club
  assessments : List AssessmentRow
  recommendations : List RecommendationRow
  deriving Repr, DecidableEq

/-- `AssessmentService.create_assessment`: insert the `Assessment` row, run
`get_club_recommendations` with the default `top_n`, and insert one
`Recommendation` row per returned recommendation. -/
def create_assessment (db : DB) (new_id : String) (user_id : Option String)
    (responses : List (String × String)) : DB × AssessmentRow :=
  let assessment : AssessmentRow := ⟨new_id, user_id, responses⟩
  let db1 : DB := { db with assessments := db.assessments ++ [assessment] }
  let recommendations := get_club_recommendations db1.clubs responses
  let rows := recommendations.map fun rec =>
    RecommendationRow.mk assessment.id rec.club.slug rec.score rec.rank rec.reasoning
  ({ db1 with recommendations := db1.recommendations ++ rows }, assessment)

/-- `AssessmentResult` Pydantic schema (`created_at` carries no logic and is
omitted). -/
structure AssessmentResult where
  assessment_id : String
  recommendations : List ClubRecommendation
  deriving Repr, DecidableEq

/-- POST `/assessment/` (`submit_assessment` endpoint): create the assessment,
then recompute `get_club_recommendations` on the updated state for the
response body. -/
def submit_assessment (db : DB) (new_id : String) (user_id : Option String)
    (responses : List (String × String)) : DB × AssessmentResult :=
  let res := create_assessment db new_id user_id responses
  let recommendations := get_club_recommendations res.1.clubs responses
  (res.1, ⟨res.2.id, recommendations⟩)

/-! ## UUID parsing (`uuid.UUID(string)`) -/

/-- Helper for `removeSubstr`: `skip` counts characters of a matched
occurrence still to be dropped. -/
def removeSubstrAux (pat : List Char) : List Char → Nat → List Char
  | [], _ => []
  | _ :: cs, skip + 1 => removeSubstrAux pat cs skip
  | c :: cs, 0 =>
    if !pat.isEmpty && ((c :: cs).take pat.length == pat) then
      removeSubstrAux pat cs (pat.length - 1)
    else c :: removeSubstrAux pat cs 0

/-- `str.replace(pat, '')` for a non-empty `pat`: remove every non-overlapping
occurrence, scanning left to right. -/
def removeSubstr (pat : List Char) (cs : List Char) : List Char :=
  removeSubstrAux pat cs 0

/-- `str.strip('{}')`: drop leading and trailing `{`/`}` characters. -/
def stripBraceChars (cs : List Char) : List Char :=
  ((cs.dropWhile fun c => c == '{' || c == '}').reverse.dropWhile
    fun c => c == '{' || c == '}').reverse

def isHexChar (c : Char) : Bool :=
  c.isDigit || ('a' ≤ c && c ≤ 'f') || ('A' ≤ c && c ≤ 'F')

/-- Format 32 hex characters as the canonical 8-4-4-4-12 dashed form. -/
def uuidFormat (cs : List Char) : String :=
  ⟨cs.take 8 ++ '-' :: ((cs.drop 8).take 4) ++ '-' :: ((cs.drop 12).take 4) ++
    '-' :: ((cs.drop 16).take 4) ++ '-' :: cs.drop 20⟩

/-- `uuid.UUID(s)` canonicalized to `str(uuid.UUID(s))`: strip `urn:` and
`uuid:` fragments and surrounding braces, remove dashes, and require exactly
32 hex digits; `none` models the `ValueError` raise.  (The sign/underscore
idiosyncrasies of Python's `int(hex, 16)` are not modelled.) -/
def pyUUIDCanon (s : String) : Option String :=
  let h := removeSubstr "urn:".toList s.toList
  let h := removeSubstr "uuid:".toList h
  let h := stripBraceChars h
  let h := h.filter (fun c => c != '-')
  if h.length == 32 && h.all isHexChar then
    some (uuidFormat (h.map Char.toLower))
  else none

/-- `AssessmentService.get_assessment_by_id`: `uuid.UUID(assessment_id)` under
`try/except ValueError`, then a lookup by id. -/
def get_assessment_by_id (db : DB) (assessment_id : String) : Option AssessmentRow :=
  match pyUUIDCanon assessment_id with
  | none => none
  | some u => db.assessments.find? (fun a => a.id == u)

/-! ## GET `/assessment/{assessment_id}` (result reconstruction) -/

/-- `club_service.get_club_by_slug`: first club with the given slug (no
active-flag filter). -/
def get_club_by_slug (clubs : List Club) (slug : String) : Option Club :=
  clubs.find? (fun c => c.slug == slug)

/-- The ORM relationship `assessment.recommendations`: rows referencing the
assessment, in insertion order. -/
def assessment_recommendations (db : DB) (assessment : AssessmentRow) :
    List RecommendationRow :=
  db.recommendations.filter (fun r => r.assessment_id == assessment.id)

/-- Comparator of `sorted(assessment.recommendations, key=lambda x: x.rank)`. -/
def rankAsc (a b : RecommendationRow) : Bool := decide (a.rank ≤ b.rank)

/-- `rec.club_id.replace("-", " ")`. -/
def dashToSpace (s : String) : String :=
  String.map (fun c => if c = '-' then ' ' else c) s

def pyTitleAux : Bool → List Char → List Char
  | _, [] => []
  | prevCased, c :: cs =>
    if c.isAlpha then
      (if prevCased then c.toLower else c.toUpper) :: pyTitleAux true cs
    else c :: pyTitleAux false cs

/-- Python `str.title()` (ASCII): uppercase a letter that does not follow a
letter, lowercase the rest. -/
def pyTitle (s : String) : String := ⟨pyTitleAux false s.toList⟩

/-- One entry of the reconstructed recommendation list: live club data when
the slug still resolves, otherwise the deleted-club placeholder.  Stored
`reasoning` is a list in this model, so `rec.reasoning or []` is the list
itself. -/
def reconstruct_recommendation (clubs : List Club) (rec : RecommendationRow) :
    ClubRecommendation :=
  match get_club_by_slug clubs rec.club_id with
  | some club =>
    { club := { id := club.id, name := club.name, slug := club.slug,
                tagline := pyOr club.tagline "", logo_url := pyOr club.logo_url "" },
      score := rec.score, rank := rec.rank, reasoning := rec.reasoning }
  | none =>
    { club := { id := rec.club_id,
                name := pyTitle (dashToSpace rec.club_id),
                slug := rec.club_id,
                tagline := "Club information unavailable",
                logo_url := "" },
      score := rec.score, rank := rec.rank, reasoning := rec.reasoning }

/-- Domain-level errors surfaced by the endpoints. -/
inductive ApiError
  | notFound
  deriving Repr, DecidableEq

/-- GET `/assessment/{assessment_id}` (`get_assessment` endpoint): 404 when the
id does not resolve, otherwise the stored recommendations sorted by rank with
club data re-resolved by slug. -/
def get_assessment (db : DB) (assessment_id : String) :
    Except ApiError AssessmentResult :=
  match get_assessment_by_id db assessment_id with
  | none => .error .notFound
  | some assessment =>
    let sorted := pySortBy rankAsc (assessment_recommendations db assessment)
    .ok ⟨assessment.id, sorted.map (reconstruct_recommendation db.clubs)⟩

/-! ## Lemmas about the stable sort -/

section SortLemmas

variable {α : Type} {r : α → α → Bool}

theorem length_insertBy (x : α) (l : List α) :
    (insertBy r x l).length = l.length + 1 := by
  induction l with
  | nil => rfl
  | cons y ys ih => by_cases h : r x y <;> simp [insertBy, h, ih]

theorem length_pySortBy (l : List α) : (pySortBy r l).length = l.length := by
  induction l with
  | nil => rfl
  | cons x xs ih => simp [pySortBy, length_insertBy, ih]

theorem mem_insertBy {a x : α} {l : List α} :
    a ∈ insertBy r x l ↔ a = x ∨ a ∈ l := by
  induction l with
  | nil => simp [insertBy]
  | cons y ys ih =>
    by_cases h : r x y
    · simp [insertBy, h]
    · simp only [insertBy, h]
      simp [ih]
      tauto

theorem mem_pySortBy {a : α} {l : List α} : a ∈ pySortBy r l ↔ a ∈ l := by
  induction l with
  | nil => exact Iff.rfl
  | cons x xs ih => simp [pySortBy, mem_insertBy, ih]

theorem pairwise_insertBy (htot : ∀ a b, r a b = true ∨ r b a = true)
    (htrans : ∀ a b c, r a b = true → r b c = true → r a c = true) (x : α)
    {l : List α} (hl : l.Pairwise (fun a b => r a b = true)) :
    (insertBy r x l).Pairwise (fun a b => r a b = true) := by
  induction l with
  | nil => simp [insertBy]
  | cons y ys ih =>
    rw [List.pairwise_cons] at hl
    by_cases h : r x y
    · rw [insertBy, if_pos h, List.pairwise_cons]
      refine ⟨?_, List.pairwise_cons.2 hl⟩
      intro b hb
      rcases List.mem_cons.1 hb with rfl | hb
      · exact h
      · exact htrans x y b h (hl.1 b hb)
    · rw [insertBy, if_neg h, List.pairwise_cons]
      refine ⟨?_, ih hl.2⟩
      intro b hb
      rcases mem_insertBy.1 hb with rfl | hb
      · exact (htot b y).resolve_left h
      · exact hl.1 b hb

theorem pairwise_pySortBy (htot : ∀ a b, r a b = true ∨ r b a = true)
    (htrans : ∀ a b c, r a b = true → r b c = true → r a c = true)
    (l : List α) : (pySortBy r l).Pairwise (fun a b => r a b = true) := by
  induction l with
  | nil => simp [pySortBy]
  | cons x xs ih => exact pairwise_insertBy htot htrans x ih

theorem pySortBy_eq_self {l : List α} (h : l.Chain' (fun a b => r a b = true)) :
    pySortBy r l = l := by
  induction l with
  | nil => rfl
  | cons x xs ih =>
    rw [List.chain'_cons'] at h
    rw [pySortBy, ih h.2]
    cases xs with
    | nil => rfl
    | cons y ys => rw [insertBy, if_pos (h.1 y rfl)]

end SortLemmas

/-! ## Lemmas about rank assignment -/

theorem length_assignRanks (n : Nat) (l : List ScoredClub) :
    (assignRanks n l).length = l.length := by
  induction l generalizing n with
  | nil => rfl
  | cons x xs ih => simp [assignRanks, ih]

theorem assignRanks_get (n : Nat) (l : List ScoredClub) (i : Nat)
    (h : i < (assignRanks n l).length) :
    ((assignRanks n l).get ⟨i, h⟩).rank = n + i := by
  induction l generalizing n i with
  | nil => simp [assignRanks] at h
  | cons x xs ih =>
    cases i with
    | zero => rfl
    | succ j =>
      have hj : j < (assignRanks (n + 1) xs).length := by
        simpa [assignRanks, Nat.succ_lt_succ_iff] using h
      have := ih (n + 1) j hj
      simpa [assignRanks, Nat.add_assoc, Nat.add_comm 1 j] using this

theorem assignRanks_map_score (n : Nat) (l : List ScoredClub) :
    (assignRanks n l).map (fun rec => rec.score) = l.map (fun sc => sc.score) := by
  induction l generalizing n with
  | nil => rfl
  | cons x xs ih => simp [assignRanks, ih]

theorem assignRanks_chain (n : Nat) (l : List ScoredClub) :
    (assignRanks n l).Chain' (fun a b => a.rank ≤ b.rank) := by
  induction l generalizing n with
  | nil => simp [assignRanks]
  | cons x xs ih =>
    cases xs with
    | nil => simp [assignRanks]
    | cons y ys =>
      exact List.Chain'.cons (by simp [assignRanks]) (ih (n + 1))

theorem mem_assignRanks {rec : ClubRecommendation} {n : Nat} {l : List ScoredClub}
    (h : rec ∈ assignRanks n l) :
    ∃ sc ∈ l, rec.club = sc.club ∧ rec.score = sc.score ∧ rec.reasoning = sc.reasoning := by
  induction l generalizing n with
  | nil => simp [assignRanks] at h
  | cons x xs ih =>
    rcases List.mem_cons.1 (by simpa [assignRanks] using h) with rfl | h
    · exact ⟨x, List.mem_cons_self x xs, rfl, rfl, rfl⟩
    · obtain ⟨sc, hmem, h2⟩ := ih h
      exact ⟨sc, List.mem_cons_of_mem x hmem, h2⟩

/-! ## Characterization of `calculate_club_score` -/

/-- Stated from the spec, for comparison with `calculate_club_score`: the
scoring-table weight for (club, question, answer) — the configured integer
when both the question and the answer token exist in the club's rule, and
exactly zero for unknown clubs, unknown questions and unknown answer
tokens. -/
def contrib (club_slug question answer : String) : Int :=
  match ((CLUB_SCORING_RULES.lookup club_slug).getD []).lookup question with
  | none => 0
  | some answer_rule => (answer_rule.lookup answer).getD 0

/-- The reasoning entry a single response pair produces: present exactly when
the question is not `time` and its table weight is strictly positive. -/
def reasonEntry (club_slug : String) (p : String × String) : Option ReasoningItem :=
  if p.1 ≠ "time" ∧ 0 < contrib club_slug p.1 p.2 then
    some ⟨questionText p.1, answerText p.1 p.2, contrib club_slug p.1 p.2⟩
  else none

theorem scoreStep_eq (club_slug : String) (acc : Int × List ReasoningItem)
    (qa : String × String) :
    scoreStep club_slug acc qa =
      (acc.1 + (if qa.1 = "time" then 0 else contrib club_slug qa.1 qa.2),
       acc.2 ++ (reasonEntry club_slug qa).toList) := by
  by_cases ht : qa.1 = "time"
  · simp [scoreStep, reasonEntry, ht]
  · cases hq : ((CLUB_SCORING_RULES.lookup club_slug).getD []).lookup qa.1 with
    | none => simp [scoreStep, contrib, reasonEntry, ht, hq]
    | some answer_rule =>
      cases ha : answer_rule.lookup qa.2 with
      | none => simp [scoreStep, contrib, reasonEntry, ht, hq, ha]
      | some c =>
        by_cases hc : 0 < c <;>
          simp [scoreStep, contrib, reasonEntry, ht, hq, ha, hc]

theorem foldl_scoreStep (club_slug : String) (rs : List (String × String))
    (acc : Int × List ReasoningItem) :
    rs.foldl (scoreStep club_slug) acc =
      (acc.1 + ((rs.filter (fun p => p.1 ≠ "time")).map
          (fun p => contrib club_slug p.1 p.2)).sum,
       acc.2 ++ rs.filterMap (reasonEntry club_slug)) := by
  induction rs generalizing acc with
  | nil => simp
  | cons p rs ih =>
    rw [List.foldl_cons, scoreStep_eq, ih]
    by_cases ht : p.1 = "time"
    · simp [ht, List.filter_cons, List.filterMap_cons, reasonEntry, add_assoc]
    · cases he : reasonEntry club_slug p <;>
        simp [ht, he, List.filter_cons, List.filterMap_cons, add_assoc]

/-! ## Shape of the ranked output -/

theorem scoreDesc_total (a b : ScoredClub) :
    scoreDesc a b = true ∨ scoreDesc b a = true := by
  simp only [scoreDesc, decide_eq_true_eq]
  exact le_total _ _

theorem scoreDesc_trans (a b c : ScoredClub) :
    scoreDesc a b = true → scoreDesc b c = true → scoreDesc a c = true := by
  simp only [scoreDesc, decide_eq_true_eq]
  exact fun h1 h2 => le_trans h2 h1

theorem ranked_take_spec (l : List ScoredClub) (top_n : Nat) :
    (assignRanks 1 ((pySortBy scoreDesc l).take top_n)).length ≤ top_n ∧
    (∀ i (h : i < (assignRanks 1 ((pySortBy scoreDesc l).take top_n)).length),
      ((assignRanks 1 ((pySortBy scoreDesc l).take top_n)).get ⟨i, h⟩).rank = i + 1) ∧
    (assignRanks 1 ((pySortBy scoreDesc l).take top_n)).Pairwise
      (fun a b => b.score ≤ a.score) := by
  refine ⟨?_, ?_, ?_⟩
  · rw [length_assignRanks, List.length_take]
    exact min_le_left _ _
  · intro i h
    rw [assignRanks_get]
    omega
  · have hp := pairwise_pySortBy scoreDesc_total scoreDesc_trans l
    have hp2 := hp.sublist (List.take_sublist top_n _)
    have hp3 : ((pySortBy scoreDesc l).take top_n).Pairwise
        (fun a b => b.score ≤ a.score) :=
      hp2.imp (fun h => by simpa [scoreDesc] using h)
    have hmap :
        ((assignRanks 1 ((pySortBy scoreDesc l).take top_n)).map
          (fun rec => rec.score)).Pairwise (fun a b => b ≤ a) := by
      rw [assignRanks_map_score]
      exact List.pairwise_map.2 hp3
    exact List.pairwise_map.1 hmap

/-! ## Claim theorems -/

/-- C1: for every club identifier and response map, `calculate_club_score`
returns a total equal to the sum, over every question in the response map
except `time`, of the scoring-table weight `contrib` for (club, question,
answer) — which is the configured weight when both the question and the
answer token exist in the club's rule and exactly zero for unknown clubs and
unknown answer tokens, with no error possible (`contrib` and the fold are
total); and on the spec's example against `acm` (whose table entry maps
enjoy.coding to 4, domain.ai to 3, impact.tech to 4, past.coding to 3) the
total is exactly 14. -/
theorem score_total_is_weight_sum :
    (∀ (club_slug : String) (responses : List (String × String)),
      (calculate_club_score club_slug responses).1 =
        ((responses.filter (fun p => p.1 ≠ "time")).map
          (fun p => contrib club_slug p.1 p.2)).sum) ∧
    (calculate_club_score "acm"
      [("enjoy", "coding"), ("domain", "ai"), ("impact", "tech"),
       ("past", "coding"), ("time", "high")]).1 = 14 := by
  constructor
  · intro club_slug responses
    rw [calculate_club_score, foldl_scoreStep]
    simp
  · decide

/-- C2: `get_club_recommendations` returns at most `top_n` entries, the rank
of the `i`-th returned entry (0-based `i`) is exactly `i + 1` — so ranks are
exactly `1..len` with no gaps, repeats or shared ranks — and scores are
non-increasing along rank order. -/
theorem recommend_topn_ranks_scores (clubs : List Club)
    (responses : List (String × String)) (top_n : Nat) :
    (get_club_recommendations clubs responses top_n).length ≤ top_n ∧
    (∀ i (h : i < (get_club_recommendations clubs responses top_n).length),
      ((get_club_recommendations clubs responses top_n).get ⟨i, h⟩).rank = i + 1) ∧
    (get_club_recommendations clubs responses top_n).Pairwise
      (fun a b => b.score ≤ a.score) := by
  by_cases h1 : (clubs.filter (·.is_active)).isEmpty
  · simp [get_club_recommendations, h1]
  · by_cases h2 : ((clubs.filter (·.is_active)).filterMap (scoreClub responses)).isEmpty
    · simp [get_club_recommendations, h1, h2]
    · have heq : get_club_recommendations clubs responses top_n =
          assignRanks 1 ((pySortBy scoreDesc
            ((clubs.filter (·.is_active)).filterMap (scoreClub responses))).take top_n) := by
        simp [get_club_recommendations, h1, h2]
      rw [heq]
      exact ranked_take_spec _ top_n

/-- C3: two response maps that differ only in the answer to the `time`
question (same questions in the same order, equal answers off `time`) yield
the same total and the same reasoning list. -/
theorem time_answer_never_affects_score (club_slug : String)
    (rs₁ rs₂ : List (String × String))
    (h : List.Forall₂ (fun p q => p.1 = q.1 ∧ (p.1 ≠ "time" → p.2 = q.2)) rs₁ rs₂) :
    calculate_club_score club_slug rs₁ = calculate_club_score club_slug rs₂ := by
  suffices h' : ∀ acc : Int × List ReasoningItem,
      rs₁.foldl (scoreStep club_slug) acc = rs₂.foldl (scoreStep club_slug) acc by
    rw [calculate_club_score, calculate_club_score]
    exact h' (0, [])
  induction h with
  | nil => intro acc; rfl
  | @cons p q l₁ l₂ hpq htail ih =>
    intro acc
    rw [List.foldl_cons, List.foldl_cons]
    have hstep : scoreStep club_slug acc p = scoreStep club_slug acc q := by
      obtain ⟨hq, hv⟩ := hpq
      by_cases ht : p.1 = "time"
      · have htq : q.1 = "time" := hq ▸ ht
        simp [scoreStep, ht, htq]
      · rw [Prod.ext hq (hv ht)]
    rw [hstep]
    exact ih (scoreStep club_slug acc q)

/-- C3 witness: varying only the `time` answer on the spec's example leaves
the score and reasoning of `acm` unchanged. -/
theorem time_answer_never_affects_score_witness :
    calculate_club_score "acm"
      [("enjoy", "coding"), ("time", "high"), ("domain", "ai"),
       ("impact", "tech"), ("past", "coding")] =
    calculate_club_score "acm"
      [("enjoy", "coding"), ("time", "none"), ("domain", "ai"),
       ("impact", "tech"), ("past", "coding")] :=
  time_answer_never_affects_score "acm" _ _
    (List.Forall₂.cons ⟨rfl, fun _ => rfl⟩
      (List.Forall₂.cons ⟨rfl, fun h => absurd rfl h⟩
        (List.Forall₂.cons ⟨rfl, fun _ => rfl⟩
          (List.Forall₂.cons ⟨rfl, fun _ => rfl⟩
            (List.Forall₂.cons ⟨rfl, fun _ => rfl⟩ List.Forall₂.nil)))))

/-- Index of a question text in the canonical presented question order: the
order of `QUESTION_TEXT`, which is also the schema field order
`enjoy, time, domain, impact, past`. -/
def canonicalQuestionPos (question : String) : Nat :=
  (QUESTION_TEXT.map Prod.snd).indexOf question

/-- C4 counterexample: for the response map that lists `domain` before
`enjoy`, the reasoning of `acm` comes out in the response map's iteration
order (domain first), which violates the canonical presented question order
(`enjoy` before `domain`): the order clause of the claim is false. -/
theorem reasoning_order_counterexample :
    ((calculate_club_score "acm" [("domain", "ai"), ("enjoy", "coding")]).2.map
      (fun item => item.question)) =
      ["Which domain are you most drawn to?", "What do you enjoy most?"] ∧
    ¬ (((calculate_club_score "acm" [("domain", "ai"), ("enjoy", "coding")]).2.map
        (fun item => item.question)).Pairwise
        (fun q₁ q₂ => canonicalQuestionPos q₁ ≤ canonicalQuestionPos q₂)) := by
  constructor
  · decide
  · decide

/-- C4 amended: the reasoning list contains exactly the entries with strictly
positive contribution (zero and negative ones are dropped from the reasoning
though still counted in the total), each entry carrying exactly its
scoring-table weight, and the entries appear in the iteration (insertion)
order of the response map — which coincides with the canonical presented
question order precisely when the response map is built in schema order, as
the validated `AssessmentResponses` payload always is. -/
theorem reasoning_entries_characterization (club_slug : String)
    (responses : List (String × String)) :
    (calculate_club_score club_slug responses).2 =
      responses.filterMap (reasonEntry club_slug) ∧
    ∀ item ∈ (calculate_club_score club_slug responses).2, 0 < item.contribution := by
  have h2 : (calculate_club_score club_slug responses).2 =
      responses.filterMap (reasonEntry club_slug) := by
    rw [calculate_club_score, foldl_scoreStep]
    simp
  refine ⟨h2, ?_⟩
  intro item hmem
  rw [h2] at hmem
  obtain ⟨p, _, he⟩ := List.mem_filterMap.1 hmem
  rw [reasonEntry] at he
  split at he
  · cases he
    exact (by assumption : p.1 ≠ "time" ∧ 0 < contrib club_slug p.1 p.2).2
  · exact absurd he (by simp)

/-- Every entry of `get_club_recommendations` comes from an active club whose
slug has an entry in `CLUB_SCORING_RULES`, and carries that club's slug. -/
theorem mem_recommendations {rec : ClubRecommendation} {clubs : List Club}
    {responses : List (String × String)} {top_n : Nat}
    (h : rec ∈ get_club_recommendations clubs responses top_n) :
    ∃ db_club ∈ clubs.filter (·.is_active),
      (CLUB_SCORING_RULES.lookup db_club.slug).isSome = true ∧
      rec.club.slug = db_club.slug := by
  by_cases h1 : (clubs.filter (·.is_active)).isEmpty
  · simp [get_club_recommendations, h1] at h
  · by_cases h2 : ((clubs.filter (·.is_active)).filterMap (scoreClub responses)).isEmpty
    · simp [get_club_recommendations, h1, h2] at h
    · have heq : get_club_recommendations clubs responses top_n =
          assignRanks 1 ((pySortBy scoreDesc
            ((clubs.filter (·.is_active)).filterMap (scoreClub responses))).take top_n) := by
        simp [get_club_recommendations, h1, h2]
      rw [heq] at h
      obtain ⟨sc, hsc, hclub, -, -⟩ := mem_assignRanks h
      have hsc3 : sc ∈ (clubs.filter (·.is_active)).filterMap (scoreClub responses) :=
        mem_pySortBy.1 (List.take_subset _ _ hsc)
      obtain ⟨db_club, hdb, hsome⟩ := List.mem_filterMap.1 hsc3
      rw [scoreClub] at hsome
      split at hsome
      · cases hsome
        exact ⟨db_club, hdb, by assumption, by rw [hclub]⟩
      · exact absurd hsome (by simp)

/-- C6: a club whose slug is absent from `CLUB_SCORING_RULES` never appears
in the output of `get_club_recommendations`, regardless of the responses and
regardless of the club's presence or activity in the club directory. -/
theorem absent_from_table_never_recommended (clubs : List Club)
    (responses : List (String × String)) (top_n : Nat) (slug : String)
    (h : CLUB_SCORING_RULES.lookup slug = none) :
    slug ∉ (get_club_recommendations clubs responses top_n).map
      (fun rec => rec.club.slug) := by
  intro hmem
  obtain ⟨rec, hrec, hslug⟩ := List.mem_map.1 hmem
  obtain ⟨db_club, -, hsome, hrecslug⟩ := mem_recommendations hrec
  rw [hrecslug] at hslug
  rw [hslug, h] at hsome
  exact absurd hsome (by simp)

/-- Clubs used by the concrete witnesses: `acm` has a scoring-table entry,
`chess` does not. -/
def witnessClubs : List Club :=
  [⟨"11111111-1111-1111-1111-111111111111", "acm", "ACM", some "For coders", none, true⟩,
   ⟨"22222222-2222-2222-2222-222222222222", "chess", "Chess Club", none, none, true⟩]

/-- The spec's example response map, in schema order. -/
def witnessResponses : List (String × String) :=
  [("enjoy", "coding"), ("time", "high"), ("domain", "ai"),
   ("impact", "tech"), ("past", "coding")]

/-- C6 witness: the table-less `chess` club is active in the directory and
still never shows up. -/
theorem absent_from_table_never_recommended_witness :
    "chess" ∉ (get_club_recommendations witnessClubs witnessResponses 10).map
      (fun rec => rec.club.slug) :=
  absent_from_table_never_recommended witnessClubs witnessResponses 10 "chess" (by decide)

/-- `get_club_recommendations` is `[]` whenever no active club has a
scoring-table entry (in particular when the active roster is empty). -/
theorem recommend_eq_nil (clubs : List Club) (responses : List (String × String))
    (top_n : Nat)
    (hc : ∀ c ∈ clubs.filter (·.is_active), CLUB_SCORING_RULES.lookup c.slug = none) :
    get_club_recommendations clubs responses top_n = [] := by
  have hscored : (clubs.filter (·.is_active)).filterMap (scoreClub responses) = [] :=
    List.filterMap_eq_nil_iff.2 (fun c hc' => by simp [scoreClub, hc c hc'])
  by_cases h1 : (clubs.filter (·.is_active)).isEmpty
  · simp [get_club_recommendations, h1]
  · simp [get_club_recommendations, h1, hscored]

/-- C7: when no active club has an entry in the scoring table (which covers
the empty-roster case), `get_club_recommendations` returns `[]` without
error, and `create_assessment` still persists the `Assessment` row while
adding zero `Recommendation` rows. -/
theorem no_candidates_empty_but_persisted (db : DB) (new_id : String)
    (uid : Option String) (responses : List (String × String)) (top_n : Nat)
    (clubs : List Club)
    (hc : ∀ c ∈ clubs.filter (·.is_active), CLUB_SCORING_RULES.lookup c.slug = none)
    (hdb : ∀ c ∈ db.clubs.filter (·.is_active), CLUB_SCORING_RULES.lookup c.slug = none) :
    get_club_recommendations clubs responses top_n = [] ∧
    (create_assessment db new_id uid responses).1.assessments =
      db.assessments ++ [⟨new_id, uid, responses⟩] ∧
    (create_assessment db new_id uid responses).1.recommendations =
      db.recommendations := by
  refine ⟨recommend_eq_nil clubs responses top_n hc, ?_, ?_⟩
  · simp [create_assessment]
  · simp [create_assessment, recommend_eq_nil db.clubs responses 10 hdb]

/-- C7 witness: with only the table-less `chess` club active, the
recommendation list is empty and the assessment row is still stored with no
recommendation rows. -/
theorem no_candidates_empty_but_persisted_witness :
    get_club_recommendations
      [⟨"22222222-2222-2222-2222-222222222222", "chess", "Chess Club", none, none, true⟩]
      witnessResponses 10 = [] ∧
    (create_assessment
      ⟨[⟨"22222222-2222-2222-2222-222222222222", "chess", "Chess Club", none, none, true⟩],
       [], []⟩
      "123e4567-e89b-12d3-a456-426614174000" none witnessResponses).1.assessments =
      [] ++ [⟨"123e4567-e89b-12d3-a456-426614174000", none, witnessResponses⟩] ∧
    (create_assessment
      ⟨[⟨"22222222-2222-2222-2222-222222222222", "chess", "Chess Club", none, none, true⟩],
       [], []⟩
      "123e4567-e89b-12d3-a456-426614174000" none witnessResponses).1.recommendations =
      [] :=
  no_candidates_empty_but_persisted
    ⟨[⟨"22222222-2222-2222-2222-222222222222", "chess", "Chess Club", none, none, true⟩],
     [], []⟩
    "123e4567-e89b-12d3-a456-426614174000" none witnessResponses 10
    [⟨"22222222-2222-2222-2222-222222222222", "chess", "Chess Club", none, none, true⟩]
    (by decide) (by decide)

/-- C10: a string that does not parse as a UUID makes `get_assessment_by_id`
return `None` — the `ValueError` of `uuid.UUID` is caught, never propagated —
and the public endpoint then reports `NotFound` rather than a parse error. -/
theorem malformed_id_not_found (db : DB) (s : String)
    (h : pyUUIDCanon s = none) :
    get_assessment_by_id db s = none ∧
    get_assessment db s = Except.error ApiError.notFound := by
  have h1 : get_assessment_by_id db s = none := by
    rw [get_assessment_by_id, h]
  exact ⟨h1, by rw [get_assessment, h1]⟩

/-- C10 witness. -/
theorem malformed_id_not_found_witness :
    get_assessment_by_id ⟨[], [], []⟩ "not-a-uuid" = none ∧
    get_assessment ⟨[], [], []⟩ "not-a-uuid" = Except.error ApiError.notFound :=
  malformed_id_not_found ⟨[], [], []⟩ "not-a-uuid" (by decide)

/-- C8: an assessment id that does not resolve to a stored row makes the
endpoint return `NotFound`, while an existing assessment with zero stored
recommendations yields a valid empty list — a distinct, non-error outcome. -/
theorem notfound_distinct_from_empty (db : DB) (assessment_id : String) :
    (get_assessment_by_id db assessment_id = none →
      get_assessment db assessment_id = Except.error ApiError.notFound) ∧
    (∀ a, get_assessment_by_id db assessment_id = some a →
      assessment_recommendations db a = [] →
      get_assessment db assessment_id = Except.ok ⟨a.id, []⟩) := by
  constructor
  · intro h
    rw [get_assessment, h]
  · intro a ha hrec
    rw [get_assessment, ha]
    simp [hrec, pySortBy]

/-- Database used by the C8 witness: one stored assessment, no stored
recommendation rows. -/
def witnessDB : DB :=
  ⟨witnessClubs, [⟨"123e4567-e89b-12d3-a456-426614174000", none, witnessResponses⟩], []⟩

/-- C8 witness: an unknown id 404s; the stored assessment without
recommendation rows returns an empty list. -/
theorem notfound_distinct_from_empty_witness :
    get_assessment witnessDB "ffffffff-ffff-ffff-ffff-ffffffffffff" =
      Except.error ApiError.notFound ∧
    get_assessment witnessDB "123e4567-e89b-12d3-a456-426614174000" =
      Except.ok ⟨"123e4567-e89b-12d3-a456-426614174000", []⟩ :=
  ⟨(notfound_distinct_from_empty witnessDB "ffffffff-ffff-ffff-ffff-ffffffffffff").1
      (by decide),
   (notfound_distinct_from_empty witnessDB "123e4567-e89b-12d3-a456-426614174000").2
      ⟨"123e4567-e89b-12d3-a456-426614174000", none, witnessResponses⟩
      (by decide) (by decide)⟩

theorem rankAsc_total (a b : RecommendationRow) :
    rankAsc a b = true ∨ rankAsc b a = true := by
  simp only [rankAsc, decide_eq_true_eq]
  exact le_total _ _

theorem rankAsc_trans (a b c : RecommendationRow) :
    rankAsc a b = true → rankAsc b c = true → rankAsc a c = true := by
  simp only [rankAsc, decide_eq_true_eq]
  exact le_trans

/-- Reconstruction keeps the stored score, rank and reasoning, whether or not
the club slug still resolves. -/
theorem reconstruct_fields (clubs : List Club) (rec : RecommendationRow) :
    (reconstruct_recommendation clubs rec).score = rec.score ∧
    (reconstruct_recommendation clubs rec).rank = rec.rank ∧
    (reconstruct_recommendation clubs rec).reasoning = rec.reasoning := by
  unfold reconstruct_recommendation
  split <;> exact ⟨rfl, rfl, rfl⟩

/-- C9: for every stored assessment, the endpoint returns one output entry
per stored `Recommendation` row — each obtained by the total function
`reconstruct_recommendation`, so none dropped and no exception — ordered by
rank ascending, and every row whose club slug no longer resolves yields the
placeholder club summary: slug humanized and title-cased as the name, the
fixed unavailable tagline, and an empty logo. -/
theorem reconstruct_rows_ordered_placeholder (db : DB) (assessment_id : String)
    (a : AssessmentRow) (h : get_assessment_by_id db assessment_id = some a) :
    get_assessment db assessment_id = Except.ok ⟨a.id,
      (pySortBy rankAsc (assessment_recommendations db a)).map
        (reconstruct_recommendation db.clubs)⟩ ∧
    ((pySortBy rankAsc (assessment_recommendations db a)).map
        (reconstruct_recommendation db.clubs)).length =
      (assessment_recommendations db a).length ∧
    ((pySortBy rankAsc (assessment_recommendations db a)).map
        (reconstruct_recommendation db.clubs)).Pairwise
      (fun x y => x.rank ≤ y.rank) ∧
    ∀ rec ∈ assessment_recommendations db a,
      get_club_by_slug db.clubs rec.club_id = none →
      reconstruct_recommendation db.clubs rec =
        ⟨⟨rec.club_id, pyTitle (dashToSpace rec.club_id), rec.club_id,
          "Club information unavailable", ""⟩, rec.score, rec.rank, rec.reasoning⟩ := by
  refine ⟨?_, ?_, ?_, ?_⟩
  · rw [get_assessment, h]
  · rw [List.length_map, length_pySortBy]
  · have hp := pairwise_pySortBy rankAsc_total rankAsc_trans
      (assessment_recommendations db a)
    have hp2 : (pySortBy rankAsc (assessment_recommendations db a)).Pairwise
        (fun x y => x.rank ≤ y.rank) :=
      hp.imp (fun hxy => by simpa [rankAsc] using hxy)
    refine List.pairwise_map.2 (hp2.imp ?_)
    intro x y hxy
    rw [(reconstruct_fields db.clubs x).2.1, (reconstruct_fields db.clubs y).2.1]
    exact hxy
  · intro rec _ hnone
    simp only [reconstruct_recommendation, hnone]

/-- Database used by the C9 witness: a stored assessment with two
recommendation rows kept out of rank order, one of which references the
vanished club `ghost-club`. -/
def witnessDB2 : DB :=
  ⟨witnessClubs,
   [⟨"aaaaaaaa-aaaa-aaaa-aaaa-aaaaaaaaaaaa", none, witnessResponses⟩],
   [⟨"aaaaaaaa-aaaa-aaaa-aaaa-aaaaaaaaaaaa", "ghost-club", 3, 2, []⟩,
    ⟨"aaaaaaaa-aaaa-aaaa-aaaa-aaaaaaaaaaaa", "acm", 14, 1, []⟩]⟩

/-- C9 witness. -/
theorem reconstruct_rows_ordered_placeholder_witness :
    get_assessment witnessDB2 "aaaaaaaa-aaaa-aaaa-aaaa-aaaaaaaaaaaa" = Except.ok
      ⟨(⟨"aaaaaaaa-aaaa-aaaa-aaaa-aaaaaaaaaaaa", none, witnessResponses⟩ : AssessmentRow).id,
       (pySortBy rankAsc (assessment_recommendations witnessDB2
          ⟨"aaaaaaaa-aaaa-aaaa-aaaa-aaaaaaaaaaaa", none, witnessResponses⟩)).map
         (reconstruct_recommendation witnessDB2.clubs)⟩ ∧
    ((pySortBy rankAsc (assessment_recommendations witnessDB2
        ⟨"aaaaaaaa-aaaa-aaaa-aaaa-aaaaaaaaaaaa", none, witnessResponses⟩)).map
       (reconstruct_recommendation witnessDB2.clubs)).length =
      (assessment_recommendations witnessDB2
        ⟨"aaaaaaaa-aaaa-aaaa-aaaa-aaaaaaaaaaaa", none, witnessResponses⟩).length ∧
    ((pySortBy rankAsc (assessment_recommendations witnessDB2
        ⟨"aaaaaaaa-aaaa-aaaa-aaaa-aaaaaaaaaaaa", none, witnessResponses⟩)).map
       (reconstruct_recommendation witnessDB2.clubs)).Pairwise
      (fun x y => x.rank ≤ y.rank) ∧
    ∀ rec ∈ assessment_recommendations witnessDB2
        ⟨"aaaaaaaa-aaaa-aaaa-aaaa-aaaaaaaaaaaa", none, witnessResponses⟩,
      get_club_by_slug witnessDB2.clubs rec.club_id = none →
      reconstruct_recommendation witnessDB2.clubs rec =
        ⟨⟨rec.club_id, pyTitle (dashToSpace rec.club_id), rec.club_id,
          "Club information unavailable", ""⟩, rec.score, rec.rank, rec.reasoning⟩ :=
  reconstruct_rows_ordered_placeholder witnessDB2 "aaaaaaaa-aaaa-aaaa-aaaa-aaaaaaaaaaaa"
    ⟨"aaaaaaaa-aaaa-aaaa-aaaa-aaaaaaaaaaaa", none, witnessResponses⟩ (by decide)

/-- Consecutive recommendation ranks never decrease (they are `1, 2, 3, …`). -/
theorem recommend_chain (clubs : List Club) (responses : List (String × String))
    (top_n : Nat) :
    (get_club_recommendations clubs responses top_n).Chain'
      (fun a b => a.rank ≤ b.rank) := by
  by_cases h1 : (clubs.filter (·.is_active)).isEmpty
  · simp [get_club_recommendations, h1]
  · by_cases h2 : ((clubs.filter (·.is_active)).filterMap (scoreClub responses)).isEmpty
    · simp [get_club_recommendations, h1, h2]
    · have heq : get_club_recommendations clubs responses top_n =
          assignRanks 1 ((pySortBy scoreDesc
            ((clubs.filter (·.is_active)).filterMap (scoreClub responses))).take top_n) := by
        simp [get_club_recommendations, h1, h2]
      rw [heq]
      exact assignRanks_chain 1 _

/-- Reading back an assessment that was just written: with a canonical fresh
id and recommendation rows whose ranks form a non-decreasing chain, the
reconstruction returns exactly those rows, in order, through
`reconstruct_recommendation`. -/
theorem reconstruct_of_rows (dbc : List Club) (asmts : List AssessmentRow)
    (oldrecs : List RecommendationRow) (new_id : String) (uid : Option String)
    (responses : List (String × String)) (recs : List ClubRecommendation)
    (hid : pyUUIDCanon new_id = some new_id)
    (hfreshA : ∀ a ∈ asmts, a.id ≠ new_id)
    (hfreshR : ∀ r ∈ oldrecs, r.assessment_id ≠ new_id)
    (hchain : recs.Chain' (fun a b => a.rank ≤ b.rank)) :
    get_assessment
      ⟨dbc, asmts ++ [⟨new_id, uid, responses⟩],
       oldrecs ++ recs.map (fun rec =>
         RecommendationRow.mk new_id rec.club.slug rec.score rec.rank rec.reasoning)⟩
      new_id =
    Except.ok ⟨new_id,
      (recs.map (fun rec =>
        RecommendationRow.mk new_id rec.club.slug rec.score rec.rank rec.reasoning)).map
        (reconstruct_recommendation dbc)⟩ := by
  have hfind : get_assessment_by_id
      ⟨dbc, asmts ++ [⟨new_id, uid, responses⟩],
       oldrecs ++ recs.map (fun rec =>
         RecommendationRow.mk new_id rec.club.slug rec.score rec.rank rec.reasoning)⟩
      new_id = some ⟨new_id, uid, responses⟩ := by
    rw [get_assessment_by_id, hid]
    show (asmts ++ [(⟨new_id, uid, responses⟩ : AssessmentRow)]).find?
      (fun a => a.id == new_id) = some ⟨new_id, uid, responses⟩
    rw [List.find?_append]
    have h1 : asmts.find? (fun a => a.id == new_id) = none :=
      List.find?_eq_none.2 (fun a ha => by simp [hfreshA a ha])
    rw [h1]
    simp
  have hfilter : assessment_recommendations
      ⟨dbc, asmts ++ [⟨new_id, uid, responses⟩],
       oldrecs ++ recs.map (fun rec =>
         RecommendationRow.mk new_id rec.club.slug rec.score rec.rank rec.reasoning)⟩
      ⟨new_id, uid, responses⟩ =
      recs.map (fun rec =>
        RecommendationRow.mk new_id rec.club.slug rec.score rec.rank rec.reasoning) := by
    rw [assessment_recommendations]
    show (oldrecs ++ _).filter (fun r => r.assessment_id == new_id) = _
    rw [List.filter_append]
    have h1 : oldrecs.filter (fun r => r.assessment_id == new_id) = [] :=
      List.filter_eq_nil_iff.2 (fun r hr => by simp [hfreshR r hr])
    have h2 : (recs.map (fun rec =>
        RecommendationRow.mk new_id rec.club.slug rec.score rec.rank rec.reasoning)).filter
        (fun r => r.assessment_id == new_id) =
        recs.map (fun rec =>
          RecommendationRow.mk new_id rec.club.slug rec.score rec.rank rec.reasoning) :=
      List.filter_eq_self.2 (fun r hr => by
        obtain ⟨rec, -, rfl⟩ := List.mem_map.1 hr
        simp)
    rw [h1, h2, List.nil_append]
  have hsorted : pySortBy rankAsc
      (recs.map (fun rec =>
        RecommendationRow.mk new_id rec.club.slug rec.score rec.rank rec.reasoning)) =
      recs.map (fun rec =>
        RecommendationRow.mk new_id rec.club.slug rec.score rec.rank rec.reasoning) := by
    refine pySortBy_eq_self ?_
    rw [List.chain'_map]
    exact hchain.imp (fun _ _ hab => by simp only [rankAsc, decide_eq_true_eq]; exact hab)
  simp only [get_assessment, hfind]
  rw [hfilter, hsorted]

/-- C5: submitting an assessment and immediately reconstructing it from the
returned id, with no intervening changes, yields a recommendation list with
identical scores, ranks and reasoning to the list returned by the
submission (club display fields are re-resolved and may differ). -/
theorem submit_then_reconstruct_roundtrip (db : DB) (new_id : String)
    (uid : Option String) (responses : List (String × String))
    (hid : pyUUIDCanon new_id = some new_id)
    (hfreshA : ∀ a ∈ db.assessments, a.id ≠ new_id)
    (hfreshR : ∀ r ∈ db.recommendations, r.assessment_id ≠ new_id) :
    ∃ out : List ClubRecommendation,
      get_assessment (submit_assessment db new_id uid responses).1 new_id =
        Except.ok ⟨new_id, out⟩ ∧
      out.map (fun r => (r.score, r.rank, r.reasoning)) =
        (submit_assessment db new_id uid responses).2.recommendations.map
          (fun r => (r.score, r.rank, r.reasoning)) := by
  refine ⟨((get_club_recommendations db.clubs responses 10).map (fun rec =>
      RecommendationRow.mk new_id rec.club.slug rec.score rec.rank rec.reasoning)).map
      (reconstruct_recommendation db.clubs), ?_, ?_⟩
  · exact reconstruct_of_rows db.clubs db.assessments db.recommendations new_id uid
      responses (get_club_recommendations db.clubs responses 10) hid hfreshA hfreshR
      (recommend_chain db.clubs responses 10)
  · rw [List.map_map, List.map_map]
    show (get_club_recommendations db.clubs responses 10).map
        (((fun r : ClubRecommendation => (r.score, r.rank, r.reasoning)) ∘
          reconstruct_recommendation db.clubs) ∘ (fun rec =>
            RecommendationRow.mk new_id rec.club.slug rec.score rec.rank rec.reasoning)) =
      (get_club_recommendations db.clubs responses 10).map
        (fun r => (r.score, r.rank, r.reasoning))
    refine List.map_congr_left (fun rec _ => ?_)
    obtain ⟨h1, h2, h3⟩ := reconstruct_fields db.clubs
      (RecommendationRow.mk new_id rec.club.slug rec.score rec.rank rec.reasoning)
    simp [Function.comp, h1, h2, h3]

/-- C5 witness: submitting the example responses against the witness
directory and reading the assessment back yields the same scores, ranks and
reasoning. -/
theorem submit_then_reconstruct_roundtrip_witness :
    ∃ out : List ClubRecommendation,
      get_assessment (submit_assessment ⟨witnessClubs, [], []⟩
          "123e4567-e89b-12d3-a456-426614174000" none witnessResponses).1
        "123e4567-e89b-12d3-a456-426614174000" =
        Except.ok ⟨"123e4567-e89b-12d3-a456-426614174000", out⟩ ∧
      out.map (fun r => (r.score, r.rank, r.reasoning)) =
        (submit_assessment ⟨witnessClubs, [], []⟩
            "123e4567-e89b-12d3-a456-426614174000" none
            witnessResponses).2.recommendations.map
          (fun r => (r.score, r.rank, r.reasoning)) :=
  submit_then_reconstruct_roundtrip ⟨witnessClubs, [], []⟩
    "123e4567-e89b-12d3-a456-426614174000" none witnessResponses
    (by decide) (by decide) (by decide)

end ClubCompass
